import Mathlib

/-!
Shallow embedding of `src/logger.rs` (OxLog): a minimal leveled logger.
Pure computations (level ordinals, timezone offset selection, calendar
decomposition, line formatting) are translated directly from the Rust
source.  The impure environment (clock, `/etc/timezone` contents, mutex
poisoning, file-write success) is passed explicitly in an `Env` record,
and `Logger::log`'s observable behaviour is returned as an effect record.
-/

namespace OxLog

/-- Rust `enum LogLevel { Trace, Debug, Info, Warn, Error }`. -/
inductive LogLevel where
  | trace
  | debug
  | info
  | warn
  | error
deriving DecidableEq

/-- Discriminant cast `level as u8`: the discriminant of the fieldless enum, in declaration
order starting at 0. -/
def LogLevel.toU8 : LogLevel → Nat
  | .trace => 0
  | .debug => 1
  | .info => 2
  | .warn => 3
  | .error => 4

/-- Rust `LogLevel::as_str`. -/
def LogLevel.as_str : LogLevel → String
  | .trace => "TRACE"
  | .debug => "DEBUG"
  | .info => "INFO"
  | .warn => "WARN"
  | .error => "ERROR"

/-- Rust `char::is_whitespace`: the Unicode `White_Space` property. -/
def rustIsWhitespace (c : Char) : Bool :=
  let n := c.toNat
  (9 ≤ n && n ≤ 13) || n == 32 || n == 0x85 || n == 0xA0 || n == 0x1680 ||
  (0x2000 ≤ n && n ≤ 0x200A) || n == 0x2028 || n == 0x2029 ||
  n == 0x202F || n == 0x205F || n == 0x3000

/-- Rust `str::trim`: remove leading and trailing whitespace. -/
def rustTrim (s : String) : String :=
  ⟨((s.data.dropWhile rustIsWhitespace).reverse.dropWhile rustIsWhitespace).reverse⟩

/-- Leap test `(year % 4 == 0 && year % 100 != 0) || year % 400 == 0`, as it appears
twice in `Logger::log`. -/
def isLeapYear (year : Nat) : Bool :=
  (year % 4 == 0 && year % 100 != 0) || year % 400 == 0

/-- Source `let days_in_year = if leap { 366 } else { 365 }`. -/
def daysInYear (year : Nat) : Nat :=
  if isLeapYear year then 366 else 365

/-- The year loop of `Logger::log`:
`while remaining_days > 0 { if remaining_days >= days_in_year { remaining_days -= days_in_year; year += 1 } else { break } }`.
Since `days_in_year ≥ 365 > 0`, the loop body runs exactly while
`remaining_days >= days_in_year`.  The first argument is fuel; any fuel
`≥ remaining_days` is enough because each iteration removes at least 365
days (see `yearLoop_fuel_enough`). -/
def yearLoop : Nat → Nat → Nat → Nat × Nat
  | 0, year, remaining => (year, remaining)
  | fuel + 1, year, remaining =>
    if daysInYear year ≤ remaining then
      yearLoop fuel (year + 1) (remaining - daysInYear year)
    else
      (year, remaining)

/-- Source `let month_days = [31, if leap {29} else {28}, 31, 30, 31, 30, 31, 31, 30, 31, 30, 31]`. -/
def month_days (is_leap_year : Bool) : List Nat :=
  [31, if is_leap_year then 29 else 28, 31, 30, 31, 30, 31, 31, 30, 31, 30, 31]

/-- The month loop of `Logger::log`:
`while month < 12 && day > month_days[month] { day -= month_days[month]; month += 1 }`.
Walks the month table in order; returns the number of months skipped
(the final `month` index) and the final `day`. -/
def monthLoop : Nat → List Nat → Nat × Nat
  | day, [] => (0, day)
  | day, m :: rest =>
    if m < day then
      let r := monthLoop (day - m) rest
      (r.1 + 1, r.2)
    else
      (0, day)

/-- The calendar fields computed by `Logger::log`. -/
structure CivilTime where
  year : Nat
  month : Nat
  day : Nat
  hours : Nat
  mins : Nat
  secs : Nat
deriving DecidableEq

/-- The calendar decomposition of `Logger::log`, lines 73–101: seconds,
minutes and hours by `u64` division and modulus, then the year loop from
1970, then `day = remaining_days + 1` and the month loop, and finally
`month = month + 1`. -/
def decompose (time_with_offset : Nat) : CivilTime :=
  let secs := time_with_offset % 60
  let mins := time_with_offset / 60 % 60
  let hours := time_with_offset / 3600 % 24
  let days_since_epoch := time_with_offset / 86400
  let yr := yearLoop days_since_epoch 1970 days_since_epoch
  let ml := monthLoop (yr.2 + 1) (month_days (isLeapYear yr.1))
  { year := yr.1, month := ml.1 + 1, day := ml.2,
    hours := hours, mins := mins, secs := secs }

/-- Decimal digit character for `n % 10`. -/
def digitChar (n : Nat) : Char :=
  match n % 10 with
  | 0 => '0' | 1 => '1' | 2 => '2' | 3 => '3' | 4 => '4'
  | 5 => '5' | 6 => '6' | 7 => '7' | 8 => '8' | _ => '9'

/-- Decimal digits of `n`, most significant first; the first argument is
fuel (`n + 1` is always enough). -/
def natDigitsAux : Nat → Nat → List Char
  | 0, _ => []
  | fuel + 1, n =>
    if n < 10 then [digitChar n]
    else natDigitsAux fuel (n / 10) ++ [digitChar (n % 10)]

/-- Decimal representation of a natural number. -/
def natDecimal (n : Nat) : List Char :=
  natDigitsAux (n + 1) n

/-- Rust's `{:0w}` format of an unsigned integer: its decimal digits,
left-padded with `'0'` to a minimum width `w` (never truncated). -/
def padZeros (w n : Nat) : List Char :=
  List.replicate (w - (natDecimal n).length) '0' ++ natDecimal n

/-- Source `format!("{:02}/{:02}/{:04} {:02}:{:02}:{:02}.{:03}", day, month, year, hours, mins, secs, millis)`. -/
def formatTimestamp (day month year hours mins secs millis : Nat) : String :=
  ⟨padZeros 2 day ++ '/' :: padZeros 2 month ++ '/' :: padZeros 4 year ++
   ' ' :: padZeros 2 hours ++ ':' :: padZeros 2 mins ++ ':' :: padZeros 2 secs ++
   '.' :: padZeros 3 millis⟩

/-- Source `format!("[{}][{}] {}\n", timestamp, level.as_str(), message)`. -/
def formatLine (timestamp : String) (level : LogLevel) (message : String) : String :=
  "[" ++ timestamp ++ "][" ++ level.as_str ++ "] " ++ message ++ "\n"

/-- Cast `total_secs as i64`: reinterpret a `u64` value as a signed 64-bit
integer (two's complement). -/
def asI64 (n : Nat) : Int :=
  if n % 2 ^ 64 < 2 ^ 63 then (n % 2 ^ 64 : Nat) else (n % 2 ^ 64 : Nat) - (2 ^ 64 : Int)

/-- Cast `... as u64`: reinterpret a signed 64-bit sum as unsigned, i.e. reduce
modulo `2^64` into `[0, 2^64)`. -/
def asU64 (i : Int) : Nat :=
  (i % (2 ^ 64 : Int)).toNat

/-- The impure environment `Logger::log` interacts with. -/
structure Env where
  /-- Result of `SystemTime::now().duration_since(UNIX_EPOCH)`: `some (secs, subsec_millis)`
  on success, `none` when the clock reads before the epoch. -/
  clock : Option (Nat × Nat)
  /-- Whether the build targets Linux (`cfg!(target_os = "linux")`). -/
  linux : Bool
  /-- Result of `read_to_string("/etc/timezone")`: `some` contents, or `none` on error. -/
  etcTimezone : Option String
  /-- Whether the mutex guarding the file handle is poisoned. -/
  mutexPoisoned : Bool
  /-- Whether `file.write_all(..)` succeeds. -/
  fileWriteOk : Bool

/-- Value `timezone_offset_seconds`, lines 57–71: on Linux, `-3 * 3600` when the
trimmed contents of `/etc/timezone` equal `"America/Sao_Paulo"`, else 0,
and 0 when the file cannot be read; on every other platform, `-3 * 3600`
unconditionally. -/
def tzOffset (env : Env) : Int :=
  if env.linux then
    match env.etcTimezone with
    | some tz_str => if rustTrim tz_str = "America/Sao_Paulo" then -3 * 3600 else 0
    | none => 0
  else
    -3 * 3600

/-- The observable effects of one `Logger::log` call. -/
structure Effects where
  /-- Whether the system clock was read. -/
  clockRead : Bool
  /-- Whether `/etc/timezone` was probed. -/
  tzProbe : Bool
  /-- Bytes printed to stdout, if any. -/
  stdoutOut : Option String
  /-- Bytes passed to `file.write_all`, if any. -/
  fileOut : Option String
  /-- Result of the file write, when one was attempted. -/
  fileWriteSucceeded : Option Bool
deriving DecidableEq

/-- A `log` call either returns normally with its effects, or panics. -/
inductive LogResult where
  | ok (e : Effects)
  | panicked (msg : String)
deriving DecidableEq

/-- Rust `struct Logger { level, file: Option<Arc<Mutex<File>>>, to_stdout }`;
only the presence of the file sink is observable here. -/
structure Logger where
  level : LogLevel
  hasFile : Bool
  to_stdout : Bool
deriving DecidableEq

/-- The effect record of the early return (`if (level as u8) < (self.level as u8) { return; }`). -/
def noEffects : Effects :=
  { clockRead := false, tzProbe := false, stdoutOut := none, fileOut := none,
    fileWriteSucceeded := none }

/-- Function `Logger::log`, lines 47–114.  The filter runs first; on pass the clock
is read (`expect("Time went backwards")` panics when it fails), the
timezone offset is resolved (probing `/etc/timezone` only on Linux), the
offset-adjusted time is the two's-complement round trip
`(total_secs as i64 + timezone_offset_seconds) as u64`, the calendar
fields are decomposed, the line is formatted, stdout is written when
`to_stdout`, and the file sink is written under the mutex
(`lock().unwrap()` panics when the mutex is poisoned; the write result is
discarded by `let _ = ...`). -/
def Logger.log (lg : Logger) (env : Env) (level : LogLevel) (message : String) : LogResult :=
  if level.toU8 < lg.level.toU8 then
    .ok noEffects
  else
    match env.clock with
    | none => .panicked "Time went backwards"
    | some (secs, millis) =>
      let time_with_offset := asU64 (asI64 secs + tzOffset env)
      let d := decompose time_with_offset
      let timestamp := formatTimestamp d.day d.month d.year d.hours d.mins d.secs millis
      let formatted := formatLine timestamp level message
      let stdoutOut := if lg.to_stdout then some formatted else none
      if lg.hasFile then
        if env.mutexPoisoned then
          .panicked "PoisonError"
        else
          .ok { clockRead := true, tzProbe := env.linux, stdoutOut := stdoutOut,
                fileOut := some formatted, fileWriteSucceeded := some env.fileWriteOk }
      else
        .ok { clockRead := true, tzProbe := env.linux, stdoutOut := stdoutOut,
              fileOut := none, fileWriteSucceeded := none }

/-- An open file handle; its identity is not observable in this model. -/
structure File where

/-- Constructing a `Logger` either yields it or aborts (the source panics
via `.expect("Unable to open log file")`). -/
inductive NewOutcome where
  | ok (lg : Logger)
  | aborted (msg : String)
deriving DecidableEq

/-- Function `Logger::new`, lines 34–45: when a path is given, open it in
append+create mode; on failure, construction aborts with the message
`"Unable to open log file"`.  `openAppend` models
`OpenOptions::new().append(true).create(true).open(path)`. -/
def Logger.new (level : LogLevel) (log_file : Option String) (to_stdout : Bool)
    (openAppend : String → Option File) : NewOutcome :=
  match log_file with
  | none => .ok { level := level, hasFile := false, to_stdout := to_stdout }
  | some path =>
    match openAppend path with
    | some _ => .ok { level := level, hasFile := true, to_stdout := to_stdout }
    | none => .aborted "Unable to open log file"

/-- Decimal-digit test on characters, used by the timestamp pattern. -/
def digitB (c : Char) : Bool :=
  48 ≤ c.toNat && c.toNat ≤ 57

/-- Pattern check for `DD/MM/YYYY HH:MM:SS.mmm`: exactly 23 characters,
digits and the fixed separators in the fixed positions. -/
def tsPattern (s : String) : Bool :=
  match s.data with
  | [d1, d2, a, m1, m2, b, y1, y2, y3, y4, c, h1, h2, e, n1, n2, f, c1, c2, g, x1, x2, x3] =>
    digitB d1 && digitB d2 && a == '/' && digitB m1 && digitB m2 && b == '/' &&
    digitB y1 && digitB y2 && digitB y3 && digitB y4 && c == ' ' &&
    digitB h1 && digitB h2 && e == ':' && digitB n1 && digitB n2 && f == ':' &&
    digitB c1 && digitB c2 && g == '.' && digitB x1 && digitB x2 && digitB x3
  | _ => false

/-- Consume one expected character from the front of a character list. -/
def expectChar (c : Char) (l : List Char) : Option (List Char) :=
  match l with
  | x :: rest => if x = c then some rest else none
  | [] => none

/-- Split a character list at its first `]`: the part before it and the
part after it. -/
def splitBracket (l : List Char) : Option (List Char × List Char) :=
  match l.dropWhile (fun c => c != ']') with
  | ']' :: rest => some (l.takeWhile (fun c => c != ']'), rest)
  | _ => none

/-- Parse a formatted line back by splitting on the two leading bracket
groups: `[` timestamp `][` level `] ` message `\n`.  Returns the timestamp
text, the level text, and the message (the trailing newline stripped). -/
def parseLine (line : String) : Option (String × String × String) := do
  let r1 ← expectChar '[' line.data
  let (ts, r2) ← splitBracket r1
  let r3 ← expectChar '[' r2
  let (lvl, r4) ← splitBracket r3
  let r5 ← expectChar ' ' r4
  some (⟨ts⟩, ⟨lvl⟩, ⟨r5.dropLast⟩)

section Helpers

lemma takeWhile_append_all {α : Type} {p : α → Bool} :
    ∀ {l r : List α}, (∀ c ∈ l, p c = true) → (l ++ r).takeWhile p = l ++ r.takeWhile p := by
  intro l
  induction l with
  | nil => intro r _; rfl
  | cons a t ih =>
    intro r h
    have ha : p a = true := h a (List.mem_cons_self a t)
    simp only [List.cons_append, List.takeWhile_cons, ha, if_true]
    rw [ih fun c hc => h c (List.mem_cons_of_mem a hc)]

lemma dropWhile_append_all {α : Type} {p : α → Bool} :
    ∀ {l r : List α}, (∀ c ∈ l, p c = true) → (l ++ r).dropWhile p = r.dropWhile p := by
  intro l
  induction l with
  | nil => intro r _; rfl
  | cons a t ih =>
    intro r h
    have ha : p a = true := h a (List.mem_cons_self a t)
    simp only [List.cons_append, List.dropWhile_cons, ha, if_true]
    exact ih fun c hc => h c (List.mem_cons_of_mem a hc)

lemma digitB_digitChar (n : Nat) : digitB (digitChar n) = true := by
  have h : n % 10 < 10 := Nat.mod_lt _ (by omega)
  unfold digitChar
  interval_cases h : n % 10 <;> rfl

lemma digitChar_ne_rbracket (n : Nat) : (digitChar n != ']') = true := by
  have h : n % 10 < 10 := Nat.mod_lt _ (by omega)
  unfold digitChar
  interval_cases h : n % 10 <;> rfl

lemma natDigitsAux_small (fuel n : Nat) (h : n < 10) :
    natDigitsAux (fuel + 1) n = [digitChar n] := by
  simp [natDigitsAux, h]

lemma natDigitsAux_step (fuel n : Nat) (h : 10 ≤ n) :
    natDigitsAux (fuel + 1) n = natDigitsAux fuel (n / 10) ++ [digitChar (n % 10)] := by
  have : ¬ n < 10 := by omega
  simp [natDigitsAux, this]

lemma natDecimal_one (n : Nat) (h : n < 10) : natDecimal n = [digitChar n] :=
  natDigitsAux_small n n h

lemma natDecimal_two (n : Nat) (h1 : 10 ≤ n) (h2 : n < 100) :
    natDecimal n = [digitChar (n / 10), digitChar (n % 10)] := by
  obtain ⟨m, rfl⟩ : ∃ m, n = m + 1 := ⟨n - 1, by omega⟩
  rw [natDecimal, natDigitsAux_step _ _ h1,
    natDigitsAux_small _ _ (by omega : (m + 1) / 10 < 10)]
  rfl

lemma natDecimal_three (n : Nat) (h1 : 100 ≤ n) (h2 : n < 1000) :
    natDecimal n = [digitChar (n / 100), digitChar (n / 10 % 10), digitChar (n % 10)] := by
  obtain ⟨m, rfl⟩ : ∃ m, n = m + 2 := ⟨n - 2, by omega⟩
  rw [natDecimal, natDigitsAux_step _ _ (by omega),
    natDigitsAux_step _ _ (by omega : 10 ≤ (m + 2) / 10),
    natDigitsAux_small _ _ (by omega : (m + 2) / 10 / 10 < 10),
    Nat.div_div_eq_div_mul]
  rfl

lemma natDecimal_four (n : Nat) (h1 : 1000 ≤ n) (h2 : n < 10000) :
    natDecimal n =
      [digitChar (n / 1000), digitChar (n / 100 % 10), digitChar (n / 10 % 10),
       digitChar (n % 10)] := by
  obtain ⟨m, rfl⟩ : ∃ m, n = m + 3 := ⟨n - 3, by omega⟩
  rw [natDecimal, natDigitsAux_step _ _ (by omega),
    natDigitsAux_step _ _ (by omega : 10 ≤ (m + 3) / 10),
    natDigitsAux_step _ _ (by omega : 10 ≤ (m + 3) / 10 / 10),
    natDigitsAux_small _ _ (by omega : (m + 3) / 10 / 10 / 10 < 10),
    Nat.div_div_eq_div_mul, Nat.div_div_eq_div_mul, Nat.div_div_eq_div_mul]
  rfl

lemma digitChar_zero : digitChar 0 = '0' := rfl

lemma padZeros_two (n : Nat) (h : n < 100) :
    padZeros 2 n = [digitChar (n / 10), digitChar (n % 10)] := by
  by_cases h1 : n < 10
  · rw [padZeros, natDecimal_one n h1]
    have hd : n / 10 = 0 := by omega
    have hm : n % 10 = n := by omega
    rw [hd, hm, digitChar_zero]
    rfl
  · rw [padZeros, natDecimal_two n (by omega) h]
    rfl

lemma padZeros_three (n : Nat) (h : n < 1000) :
    padZeros 3 n = [digitChar (n / 100), digitChar (n / 10 % 10), digitChar (n % 10)] := by
  by_cases h1 : n < 10
  · rw [padZeros, natDecimal_one n h1]
    have hd : n / 100 = 0 := by omega
    have hd2 : n / 10 % 10 = 0 := by omega
    have hm : n % 10 = n := by omega
    rw [hd, hd2, hm, digitChar_zero]
    rfl
  · by_cases h2 : n < 100
    · rw [padZeros, natDecimal_two n (by omega) h2]
      have hd : n / 100 = 0 := by omega
      have hm : n / 10 % 10 = n / 10 := by omega
      rw [hd, hm, digitChar_zero]
      rfl
    · rw [padZeros, natDecimal_three n (by omega) h]
      rfl

lemma padZeros_four (n : Nat) (h1 : 1000 ≤ n) (h2 : n < 10000) :
    padZeros 4 n =
      [digitChar (n / 1000), digitChar (n / 100 % 10), digitChar (n / 10 % 10),
       digitChar (n % 10)] := by
  rw [padZeros, natDecimal_four n h1 h2]
  rfl

lemma tsPattern_format (day month year hours mins secs millis : Nat)
    (hd : day < 100) (hm : month < 100) (hy1 : 1000 ≤ year) (hy2 : year < 10000)
    (hh : hours < 100) (hmi : mins < 100) (hs : secs < 100) (hms : millis < 1000) :
    tsPattern (formatTimestamp day month year hours mins secs millis) = true := by
  unfold formatTimestamp
  rw [padZeros_two day hd, padZeros_two month hm, padZeros_four year hy1 hy2,
    padZeros_two hours hh, padZeros_two mins hmi, padZeros_two secs hs,
    padZeros_three millis hms]
  simp only [List.cons_append, List.nil_append]
  unfold tsPattern
  simp [digitB_digitChar]

/-- The line `Logger::log` emits for a given environment, level, message and
clock reading: the formatted timestamp of the offset-adjusted instant,
then the level tag, then the message and a newline. -/
def emittedLine (env : Env) (level : LogLevel) (message : String) (secs millis : Nat) : String :=
  let d := decompose (asU64 (asI64 secs + tzOffset env))
  formatLine (formatTimestamp d.day d.month d.year d.hours d.mins d.secs millis) level message

lemma log_pass (lg : Logger) (env : Env) (level : LogLevel) (message : String)
    (s ms : Nat) (hclock : env.clock = some (s, ms)) (hpass : ¬ level.toU8 < lg.level.toU8)
    (hpoison : env.mutexPoisoned = false) :
    lg.log env level message = .ok
      { clockRead := true, tzProbe := env.linux,
        stdoutOut := if lg.to_stdout then some (emittedLine env level message s ms) else none,
        fileOut := if lg.hasFile then some (emittedLine env level message s ms) else none,
        fileWriteSucceeded := if lg.hasFile then some env.fileWriteOk else none } := by
  unfold Logger.log emittedLine
  rw [if_neg hpass, hclock, hpoison]
  by_cases hf : lg.hasFile <;> simp [hf]

lemma log_filtered (lg : Logger) (env : Env) (level : LogLevel) (message : String)
    (hfail : level.toU8 < lg.level.toU8) :
    lg.log env level message = .ok noEffects := by
  unfold Logger.log
  rw [if_pos hfail]

lemma formatLine_data (ts : String) (level : LogLevel) (message : String) :
    (formatLine ts level message).data =
      '[' :: (ts.data ++ (']' :: '[' ::
        (level.as_str.data ++ (']' :: ' ' :: (message.data ++ ['\n']))))) := by
  unfold formatLine
  simp [String.data_append]

lemma natDigitsAux_mem (fuel : Nat) :
    ∀ n c, c ∈ natDigitsAux fuel n → ∃ k, c = digitChar k := by
  induction fuel with
  | zero =>
    intro n c hc
    simp [natDigitsAux] at hc
  | succ f ih =>
    intro n c hc
    by_cases h : n < 10
    · rw [natDigitsAux_small f n h] at hc
      simp only [List.mem_singleton] at hc
      exact ⟨n, hc⟩
    · rw [natDigitsAux_step f n (by omega)] at hc
      rcases List.mem_append.mp hc with hc | hc
      · exact ih _ _ hc
      · simp only [List.mem_singleton] at hc
        exact ⟨n % 10, hc⟩

lemma padZeros_mem (w n : Nat) : ∀ c ∈ padZeros w n, (c != ']') = true := by
  intro c hc
  unfold padZeros at hc
  rcases List.mem_append.mp hc with hc | hc
  · rw [List.eq_of_mem_replicate hc]
    rfl
  · obtain ⟨k, rfl⟩ := natDigitsAux_mem _ _ _ hc
    exact digitChar_ne_rbracket k

lemma formatTimestamp_no_rbracket (day month year hours mins secs millis : Nat) :
    ∀ c ∈ (formatTimestamp day month year hours mins secs millis).data,
      (c != ']') = true := by
  intro c hc
  unfold formatTimestamp at hc
  simp only [List.mem_append, List.mem_cons] at hc
  rcases hc with
    (((((h | rfl | h) | rfl | h) | rfl | h) | rfl | h) | rfl | h) | rfl | h
  all_goals first
    | exact padZeros_mem _ _ _ h
    | rfl

lemma as_str_no_rbracket (level : LogLevel) :
    ∀ c ∈ level.as_str.data, (c != ']') = true := by
  cases level <;> decide

lemma splitBracket_append (l r : List Char) (h : ∀ c ∈ l, (c != ']') = true) :
    splitBracket (l ++ ']' :: r) = some (l, r) := by
  unfold splitBracket
  rw [dropWhile_append_all h, takeWhile_append_all h]
  simp [List.dropWhile_cons, List.takeWhile_cons]

lemma parseLine_formatLine (ts : String) (level : LogLevel) (message : String)
    (hts : ∀ c ∈ ts.data, (c != ']') = true) :
    parseLine (formatLine ts level message) = some (ts, level.as_str, message) := by
  unfold parseLine
  rw [formatLine_data]
  rw [show expectChar '[' ('[' :: (ts.data ++ (']' :: '[' ::
        (level.as_str.data ++ (']' :: ' ' :: (message.data ++ ['\n'])))))) =
      some (ts.data ++ (']' :: '[' ::
        (level.as_str.data ++ (']' :: ' ' :: (message.data ++ ['\n']))))) from rfl]
  simp only [Option.bind_some, Option.some_bind, Option.bind_eq_bind]
  rw [splitBracket_append _ _ hts]
  simp only [Option.some_bind]
  rw [show expectChar '[' ('[' ::
        (level.as_str.data ++ (']' :: ' ' :: (message.data ++ ['\n'])))) =
      some (level.as_str.data ++ (']' :: ' ' :: (message.data ++ ['\n']))) from rfl]
  simp only [Option.some_bind]
  rw [splitBracket_append _ _ (as_str_no_rbracket level)]
  simp only [Option.some_bind]
  rw [show expectChar ' ' (' ' :: (message.data ++ ['\n'])) =
      some (message.data ++ ['\n']) from rfl]
  simp only [Option.some_bind, List.dropLast_concat]

end Helpers

/-- C1: a `log(L, m)` call on a `Logger` with threshold `T` writes the
formatted line to each enabled sink iff `ordinal(L) ≥ ordinal(T)`; when
`ordinal(L) < ordinal(T)` the call returns immediately with no observable
effect: no clock read, no timezone probe, no bytes to any sink. -/
theorem c1_filter_gates_effects (lg : Logger) (env : Env) (level : LogLevel)
    (message : String) (s ms : Nat)
    (hclock : env.clock = some (s, ms)) (hpoison : env.mutexPoisoned = false) :
    (level.toU8 < lg.level.toU8 →
      lg.log env level message = .ok noEffects) ∧
    (¬ level.toU8 < lg.level.toU8 →
      ∃ e : Effects, lg.log env level message = .ok e ∧
        e.clockRead = true ∧
        e.stdoutOut = (if lg.to_stdout then some (emittedLine env level message s ms)
                       else none) ∧
        e.fileOut = (if lg.hasFile then some (emittedLine env level message s ms)
                     else none)) := by
  constructor
  · intro h
    exact log_filtered lg env level message h
  · intro h
    exact ⟨_, log_pass lg env level message s ms hclock h hpoison, rfl, rfl, rfl⟩

/-- Witness for C1: the filter suppresses an `Info` call under a `Warn`
threshold, and an `Error` call passes and reaches both sinks. -/
theorem c1_filter_gates_effects_witness :
    (({ level := .warn, hasFile := true, to_stdout := true } : Logger).log
        { clock := some (0, 0), linux := false, etcTimezone := none,
          mutexPoisoned := false, fileWriteOk := true } .info "m" = .ok noEffects) ∧
    (∃ e : Effects,
      ({ level := .warn, hasFile := true, to_stdout := true } : Logger).log
          { clock := some (0, 0), linux := false, etcTimezone := none,
            mutexPoisoned := false, fileWriteOk := true } .error "m" = .ok e ∧
        e.clockRead = true ∧
        e.stdoutOut = (if ({ level := .warn, hasFile := true, to_stdout := true } : Logger).to_stdout
                       then some (emittedLine
                          { clock := some (0, 0), linux := false, etcTimezone := none,
                            mutexPoisoned := false, fileWriteOk := true } .error "m" 0 0)
                       else none) ∧
        e.fileOut = (if ({ level := .warn, hasFile := true, to_stdout := true } : Logger).hasFile
                     then some (emittedLine
                        { clock := some (0, 0), linux := false, etcTimezone := none,
                          mutexPoisoned := false, fileWriteOk := true } .error "m" 0 0)
                     else none)) :=
  ⟨(c1_filter_gates_effects _ _ .info "m" 0 0 rfl rfl).1 (by decide),
   (c1_filter_gates_effects _ _ .error "m" 0 0 rfl rfl).2 (by decide)⟩

/-- C2: when the configured file sink cannot be opened, construction
aborts with the explicit message `"Unable to open log file"` and never
silently yields a `Logger` without the file sink. -/
theorem c2_open_failure_aborts (level : LogLevel) (path : String) (to_stdout : Bool)
    (openAppend : String → Option File) (h : openAppend path = none) :
    Logger.new level (some path) to_stdout openAppend = .aborted "Unable to open log file" ∧
    ∀ lg : Logger, Logger.new level (some path) to_stdout openAppend ≠ .ok lg := by
  have key : Logger.new level (some path) to_stdout openAppend =
      NewOutcome.aborted "Unable to open log file" := by
    show (match openAppend path with
      | some _ => NewOutcome.ok { level := level, hasFile := true, to_stdout := to_stdout }
      | none => NewOutcome.aborted "Unable to open log file") =
      NewOutcome.aborted "Unable to open log file"
    rw [h]
  exact ⟨key, fun lg hcontra => by rw [key] at hcontra; cases hcontra⟩

/-- Witness for C2 with an `open` that always fails. -/
theorem c2_open_failure_aborts_witness :
    Logger.new .info (some "p") true (fun _ => none) = .aborted "Unable to open log file" ∧
    ∀ lg : Logger, Logger.new .info (some "p") true (fun _ => none) ≠ .ok lg :=
  c2_open_failure_aborts .info "p" true (fun _ => none) rfl

/-- C6: the filter is monotone in the threshold: if `T1` is less severe
than `T2` and level `L` passes under `T2`, then `L` passes under `T1`,
and the two calls behave identically. -/
theorem c6_filter_monotone (t1 t2 level : LogLevel) (env : Env) (f b : Bool)
    (message : String)
    (hsev : t1.toU8 < t2.toU8) (hpass : ¬ level.toU8 < t2.toU8) :
    ¬ level.toU8 < t1.toU8 ∧
    ({ level := t1, hasFile := f, to_stdout := b } : Logger).log env level message =
      ({ level := t2, hasFile := f, to_stdout := b } : Logger).log env level message := by
  have h1 : ¬ level.toU8 < t1.toU8 := by omega
  refine ⟨h1, ?_⟩
  unfold Logger.log
  rw [if_neg h1, if_neg hpass]

/-- Witness for C6: `Error` passes under `Warn`, hence under `Debug`. -/
theorem c6_filter_monotone_witness :
    ¬ LogLevel.toU8 .error < LogLevel.toU8 .debug ∧
    ({ level := .debug, hasFile := true, to_stdout := true } : Logger).log
        { clock := some (0, 0), linux := false, etcTimezone := none,
          mutexPoisoned := false, fileWriteOk := true } .error "m" =
      ({ level := .warn, hasFile := true, to_stdout := true } : Logger).log
        { clock := some (0, 0), linux := false, etcTimezone := none,
          mutexPoisoned := false, fileWriteOk := true } .error "m" :=
  c6_filter_monotone .debug .warn .error
    { clock := some (0, 0), linux := false, etcTimezone := none,
      mutexPoisoned := false, fileWriteOk := true } true true "m"
    (by decide) (by decide)

/-- C8: a failing per-message file write is swallowed: the call still
returns normally with `ok`, the line's bytes were handed to the sink's
write, and the failure is not surfaced to the caller. -/
theorem c8_write_failure_swallowed (lg : Logger) (env : Env) (level : LogLevel)
    (message : String) (s ms : Nat)
    (hclock : env.clock = some (s, ms)) (hpoison : env.mutexPoisoned = false)
    (hfile : lg.hasFile = true) (hfail : env.fileWriteOk = false)
    (hpass : ¬ level.toU8 < lg.level.toU8) :
    ∃ e : Effects, lg.log env level message = .ok e ∧
      e.fileOut = some (emittedLine env level message s ms) ∧
      e.fileWriteSucceeded = some false := by
  refine ⟨_, log_pass lg env level message s ms hclock hpass hpoison, ?_, ?_⟩
  · rw [hfile]
    rfl
  · rw [hfile, hfail]
    rfl

/-- Witness for C8: the write fails, the call still returns `ok`. -/
theorem c8_write_failure_swallowed_witness :
    ∃ e : Effects,
      ({ level := .info, hasFile := true, to_stdout := false } : Logger).log
          { clock := some (7, 3), linux := false, etcTimezone := none,
            mutexPoisoned := false, fileWriteOk := false } .error "m" = .ok e ∧
        e.fileOut = some (emittedLine
          { clock := some (7, 3), linux := false, etcTimezone := none,
            mutexPoisoned := false, fileWriteOk := false } .error "m" 7 3) ∧
        e.fileWriteSucceeded = some false :=
  c8_write_failure_swallowed _ _ .error "m" 7 3 rfl rfl rfl rfl (by decide)

/-- C10: a passing log call can panic at the public interface: with a
pre-epoch clock the `expect` on `duration_since` panics with
"Time went backwards", and with a poisoned mutex and a configured file
sink the `lock().unwrap()` panics; the call is not unconditionally
non-failing. -/
theorem c10_panic_paths (lg : Logger) (env : Env) (level : LogLevel) (message : String)
    (hpass : ¬ level.toU8 < lg.level.toU8) :
    (env.clock = none → lg.log env level message = .panicked "Time went backwards") ∧
    (∀ s ms, env.clock = some (s, ms) → lg.hasFile = true → env.mutexPoisoned = true →
      lg.log env level message = .panicked "PoisonError") := by
  constructor
  · intro hc
    unfold Logger.log
    rw [if_neg hpass, hc]
  · intro s ms hc hf hp
    unfold Logger.log
    rw [if_neg hpass, hc, hf, hp]
    simp

/-- C4: the decomposition follows proleptic Gregorian civil rules: the
code's leap test agrees with divisible-by-4-and-not-100-unless-400, the
month table is the standard 28/29/30/31 one, the instant 1709164800
(2024-02-29 under zero offset, which really is this instant's
offset-adjusted value on Linux with an unreadable probe file) decomposes
to day 29 month 2, and the same instant 365 days (one non-leap year)
later decomposes to 28 February 2025, never day 29 month 2. -/
theorem c4_gregorian_decomposition :
    (∀ year : Nat,
      isLeapYear year = true ↔ ((year % 4 = 0 ∧ year % 100 ≠ 0) ∨ year % 400 = 0)) ∧
    month_days true = [31, 29, 31, 30, 31, 30, 31, 31, 30, 31, 30, 31] ∧
    month_days false = [31, 28, 31, 30, 31, 30, 31, 31, 30, 31, 30, 31] ∧
    asU64 (asI64 1709164800 + tzOffset
      { clock := some (1709164800, 0), linux := true, etcTimezone := none,
        mutexPoisoned := false, fileWriteOk := true }) = 1709164800 ∧
    decompose 1709164800 =
      { year := 2024, month := 2, day := 29, hours := 0, mins := 0, secs := 0 } ∧
    decompose (1709164800 + 365 * 86400) =
      { year := 2025, month := 2, day := 28, hours := 0, mins := 0, secs := 0 } ∧
    ¬((decompose (1709164800 + 365 * 86400)).day = 29 ∧
      (decompose (1709164800 + 365 * 86400)).month = 2) := by
  refine ⟨?_, rfl, rfl, by decide, by decide, by decide, by decide⟩
  intro year
  simp only [isLeapYear, Bool.or_eq_true, Bool.and_eq_true, beq_iff_eq, bne_iff_ne,
    ne_eq]

/-- C5 counterexample: on Linux with `/etc/timezone` containing the
timezone literal plus a trailing newline — so the content does NOT match
the literal exactly — the code still applies the -3h offset, because it
compares the trimmed content.  This falsifies "offset is -3h iff the
content matches the literal exactly". -/
theorem c5_exact_match_counterexample :
    tzOffset
        { clock := some (0, 0), linux := true,
          etcTimezone := some "America/Sao_Paulo\n",
          mutexPoisoned := false, fileWriteOk := true } = -3 * 3600 ∧
    ("America/Sao_Paulo\n" : String) ≠ "America/Sao_Paulo" := by
  constructor
  · decide
  · decide

/-- C5 (amended): on Linux the -3h offset is applied iff `/etc/timezone`
is readable and its content, after trimming leading and trailing
whitespace, equals `"America/Sao_Paulo"`; any other content or a read
failure yields zero offset; on every non-Linux platform the -3h offset
is applied unconditionally. -/
theorem c5_tz_offset_policy (env : Env) :
    (env.linux = true →
      (tzOffset env = -3 * 3600 ↔
        ∃ s, env.etcTimezone = some s ∧ rustTrim s = "America/Sao_Paulo") ∧
      (tzOffset env = -3 * 3600 ∨ tzOffset env = 0)) ∧
    (env.linux = false → tzOffset env = -3 * 3600) := by
  constructor
  · intro hl
    cases he : env.etcTimezone with
    | none =>
      have h0 : tzOffset env = 0 := by
        unfold tzOffset
        rw [hl, he]
        rfl
      constructor
      · constructor
        · intro h
          rw [h0] at h
          exact absurd h (by decide)
        · rintro ⟨s, hs, _⟩
          cases hs
      · right
        exact h0
    | some s =>
      have heq : tzOffset env = if rustTrim s = "America/Sao_Paulo" then -3 * 3600 else 0 := by
        unfold tzOffset
        rw [hl, he]
        rfl
      by_cases ht : rustTrim s = "America/Sao_Paulo"
      · rw [heq, if_pos ht]
        exact ⟨⟨fun _ => ⟨s, rfl, ht⟩, fun _ => rfl⟩, Or.inl rfl⟩
      · rw [heq, if_neg ht]
        constructor
        · constructor
          · intro h
            exact absurd h (by decide)
          · rintro ⟨u, hu, htu⟩
            cases hu
            exact absurd htu ht
        · right
          rfl
  · intro hl
    unfold tzOffset
    rw [hl]
    rfl

/-- Witness for C5 (amended): a non-Linux platform gets the fixed offset
unconditionally. -/
theorem c5_tz_offset_policy_witness :
    tzOffset
        { clock := none, linux := false, etcTimezone := none,
          mutexPoisoned := false, fileWriteOk := false } = -3 * 3600 :=
  (c5_tz_offset_policy _).2 rfl

/-- C7: round-trip of the formatter: for every level and every message
(embedded brackets or newlines are not escaped), parsing the formatted
line by splitting on the two leading bracket groups yields a timestamp
matching the `DD/MM/YYYY HH:MM:SS.mmm` pattern, a level name from the
fixed set, and the original message reproduced exactly after the second
bracket group. -/
theorem c7_format_roundtrip (level : LogLevel) (message : String)
    (day month year hours mins secs millis : Nat)
    (hd : day < 100) (hm : month < 100) (hy1 : 1000 ≤ year) (hy2 : year < 10000)
    (hh : hours < 100) (hmi : mins < 100) (hs : secs < 100) (hms : millis < 1000) :
    parseLine (formatLine (formatTimestamp day month year hours mins secs millis)
        level message) =
      some (formatTimestamp day month year hours mins secs millis, level.as_str, message) ∧
    tsPattern (formatTimestamp day month year hours mins secs millis) = true ∧
    level.as_str ∈ ["TRACE", "DEBUG", "INFO", "WARN", "ERROR"] := by
  refine ⟨parseLine_formatLine _ _ _ (formatTimestamp_no_rbracket _ _ _ _ _ _ _), ?_, ?_⟩
  · exact tsPattern_format _ _ _ _ _ _ _ hd hm hy1 hy2 hh hmi hs hms
  · cases level <;> simp [LogLevel.as_str]

/-- Witness for C7 with a message containing a bracket and a newline. -/
theorem c7_format_roundtrip_witness :
    parseLine (formatLine (formatTimestamp 29 2 2024 23 59 58 7) .info "a]b\nc") =
      some (formatTimestamp 29 2 2024 23 59 58 7, LogLevel.as_str .info, "a]b\nc") ∧
    tsPattern (formatTimestamp 29 2 2024 23 59 58 7) = true ∧
    LogLevel.as_str .info ∈ ["TRACE", "DEBUG", "INFO", "WARN", "ERROR"] :=
  c7_format_roundtrip .info "a]b\nc" 29 2 2024 23 59 58 7 (by decide) (by decide)
    (by decide) (by decide) (by decide) (by decide) (by decide) (by decide)

/-- Witness for C10: both panic paths at concrete inputs. -/
theorem c10_panic_paths_witness :
    (({ level := .trace, hasFile := true, to_stdout := false } : Logger).log
        { clock := none, linux := false, etcTimezone := none,
          mutexPoisoned := false, fileWriteOk := true } .error "m" =
      .panicked "Time went backwards") ∧
    (({ level := .trace, hasFile := true, to_stdout := false } : Logger).log
        { clock := some (5, 5), linux := false, etcTimezone := none,
          mutexPoisoned := true, fileWriteOk := true } .error "m" =
      .panicked "PoisonError") :=
  ⟨(c10_panic_paths _ _ .error "m" (by decide)).1 rfl,
   (c10_panic_paths _ _ .error "m" (by decide)).2 5 5 rfl rfl rfl⟩

end OxLog
